import Mathlib

/-!
Shallow embedding of the ddb_harvester repository (src/harvest_records.py and
src/harvest_records_in_batches.py), an OAI-PMH harvesting client.

Modelling conventions:
* An HTTP response is modelled by `Response`: its status code, its raw body
  text, and the parsed views the code derives from the body via the XML
  library (the list of page items returned by `parse_identifiers` /
  `parse_records_list`, and the parsed `resumptionToken` element).  The XML
  library itself is outside the core, so the parsed views are carried as
  fields rather than recomputed from the text.
* `session.get` outcomes are an oracle `Nat → AttemptOutcome` giving, for each
  attempt index, either a transport exception or a returned response.
* Python exceptions are modelled with `Option`/`Except`/explicit constructors:
  `updateExpected` returns `none` for an uncaught `KeyError`, `make_request`
  returns `.error ()` when it re-raises, and the pagination loop has explicit
  `transportRaised`/`keyRaised` outcomes.
* `time.sleep` durations are accumulated and returned alongside results.
* The `while True` pagination loop is driven by explicit fuel; the recursive
  `make_request` is driven by fuel equal to `MAX_RETRIES - retries`, which is
  exactly the number of retries it still may take.
* The filesystem is an association list from (directory, filename) to content;
  `open(path, "w")` plus `write` is `setFile` (unconditional overwrite).
-/

namespace DdbHarvester

/-- MAX_RETRIES = 10 in both source files. -/
def MAX_RETRIES : Nat := 10

/-- METADATA_PREFIX = "ddb" in both source files. -/
def METADATA_PFX : String := "ddb"

/-- Parsed view of a `resumptionToken` XML element: its text (Python `None`
when the element is empty) and its `completeListSize` attribute parsed as an
int when present. -/
structure TokenNode where
  text : Option String
  completeListSize : Option Nat
deriving DecidableEq

/-- An HTTP response together with the views the code computes from its body. -/
structure Response where
  status : Nat
  text : String
  items : List String
  tokenNode : Option TokenNode
deriving DecidableEq

deriving instance DecidableEq for Except

/-- Outcome of one `session.get` attempt: a transport-level
`requests.exceptions.RequestException`, or a returned response (whose
`raise_for_status` may still raise). -/
inductive AttemptOutcome where
  | exc : AttemptOutcome
  | resp : Response → AttemptOutcome
deriving DecidableEq

/-- Whether the `try` block of `make_request` raises on this attempt:
either `session.get` raised, or `response.raise_for_status()` raised, which
`requests` does exactly for status codes in 400..599. -/
def attemptFails : AttemptOutcome → Bool
  | .exc => true
  | .resp r => decide (400 ≤ r.status) && decide (r.status < 600)

/-- The recursive retry body of `make_request`, with `fuel = MAX_RETRIES -
retries` (the remaining allowed retries).  Returns the result (`.error ()`
models re-raising the last exception) and the total seconds slept.  On a
failed attempt with retries left it sleeps `2^retries` and recurses. -/
def makeRequestGo (oracle : Nat → AttemptOutcome) : Nat → Nat → Except Unit Response × Nat
  | 0, retries =>
    if attemptFails (oracle retries) then (.error (), 0)
    else
      match oracle retries with
      | .resp r => (.ok r, 0)
      | .exc => (.error (), 0)
  | fuel + 1, retries =>
    if attemptFails (oracle retries) then
      let p := makeRequestGo oracle fuel (retries + 1)
      (p.1, 2 ^ retries + p.2)
    else
      match oracle retries with
      | .resp r => (.ok r, 0)
      | .exc => (.error (), 0)

/-- make_request(params, session) with retries starting at 0. -/
def make_request (oracle : Nat → AttemptOutcome) : Except Unit Response × Nat :=
  makeRequestGo oracle MAX_RETRIES 0

/-- Substring containment, modelling Python `pat in s`. -/
def strContains (s pat : String) : Bool :=
  decide (List.IsInfix pat.data s.data)

/-- parse_sets keeps the setSpec texts that do not contain ":" (the input is
the list of setSpec texts found in the ListSets response). -/
def parse_sets (setSpecs : List String) : List String :=
  setSpecs.filter (fun s => !(strContains s ":"))

/-- The literal error marker checked by get_record_information. -/
def cannotDisseminateMarker : String := "<error code=\"cannotDisseminateFormat\">"

/-- The literal error marker checked by get_record_information. -/
def idDoesNotExistMarker : String := "<error code=\"idDoesNotExist\">"

/-- The retry condition of get_record_information: non-200 status, or either
protocol-level error marker embedded in the body. -/
def errorCondition (r : Response) : Bool :=
  !(r.status == 200) || strContains r.text cannotDisseminateMarker
    || strContains r.text idDoesNotExistMarker

/-- State of the pagination loop in list_identifiers / list_records: the
accumulated items and the expected total for the set. -/
structure LoopState where
  identifiers : List String
  expected : Nat
deriving DecidableEq

/-- Result of processing one 200 page (or the non-200 else branch):
continue with a truthy resumption token, break out of the loop, or raise an
uncaught KeyError from `attrib["completeListSize"]`. -/
inductive StepOut where
  | cont : LoopState → String → StepOut
  | done : LoopState → StepOut
  | keyError : LoopState → StepOut
deriving DecidableEq

/-- Python `root.findtext(".//...resumptionToken")`: `none` when the element
is absent, the element text otherwise, with `""` substituted when the element
has no text. -/
def findtextToken (r : Response) : Option String :=
  r.tokenNode.map (fun n => n.text.getD "")

/-- The `if expected == 0: try: ... except AttributeError: ...` block.
When the current expected total is 0 it is recomputed: from the
`completeListSize` attribute when the token element is there; when the
element is absent, `None.attrib` raises AttributeError, which is caught and
the item count so far is used.  When the element is there but the attribute
is missing, `attrib["completeListSize"]` raises KeyError, which the code does
not catch: modelled as `none`. -/
def updateExpected (expected itemCount : Nat) (r : Response) : Option Nat :=
  if expected == 0 then
    match r.tokenNode with
    | none => some itemCount
    | some n =>
      match n.completeListSize with
      | some v => some v
      | none => none
  else some expected

/-- The body of one iteration of the `while True` loop after `make_request`
returned `r`: on status 200 extend the items, update the expected total, read
the token and either continue (truthy token) or break; on any other status
take the else branch and break with the state unchanged. -/
def listStep (s : LoopState) (r : Response) : StepOut :=
  if r.status == 200 then
    let items := s.identifiers ++ r.items
    match updateExpected s.expected items.length r with
    | none => .keyError ⟨items, s.expected⟩
    | some e =>
      match findtextToken r with
      | none => .done ⟨items, e⟩
      | some t => if t == "" then .done ⟨items, e⟩ else .cont ⟨items, e⟩ t
  else .done s

/-- The query parameters of the first request of a pagination loop. -/
def initialParams (verb setSpec : String) : List (String × String) :=
  [("verb", verb), ("metadataPrefix", METADATA_PFX), ("set", setSpec)]

/-- The query parameters of every follow-up request: the loop reassigns
`params = {"verb": verb, "resumptionToken": token}` when the token is truthy. -/
def tokenParams (verb token : String) : List (String × String) :=
  [("verb", verb), ("resumptionToken", token)]

/-- How a pagination run ends: normal loop exit, a re-raised transport error
from make_request, an uncaught KeyError, or the fuel bound was reached while
the loop still wanted another page. -/
inductive RunOut where
  | finished : LoopState → RunOut
  | transportRaised : LoopState → RunOut
  | keyRaised : LoopState → RunOut
  | outOfFuel : LoopState → RunOut
deriving DecidableEq

/-- The `while True` pagination loop, driven by fuel.  `server` gives, for
each request index and its query parameters, the attempt oracle consumed by
make_request.  Returns the run outcome and the trace of the query parameters
of every request issued. -/
def loopGo (verb : String) (server : Nat → List (String × String) → Nat → AttemptOutcome) :
    Nat → LoopState → List (String × String) → Nat → RunOut × List (List (String × String))
  | _, s, _, 0 => (.outOfFuel s, [])
  | reqIdx, s, params, fuel + 1 =>
    match (make_request (server reqIdx params)).1 with
    | .error _ => (.transportRaised s, [params])
    | .ok r =>
      match listStep s r with
      | .done s' => (.finished s', [params])
      | .keyError s' => (.keyRaised s', [params])
      | .cont s' t =>
        let p := loopGo verb server (reqIdx + 1) s' (tokenParams verb t) fuel
        (p.1, params :: p.2)

/-- list_identifiers(set_spec, session) from harvest_records.py. -/
def list_identifiers (server : Nat → List (String × String) → Nat → AttemptOutcome)
    (setSpec : String) (fuel : Nat) : RunOut × List (List (String × String)) :=
  loopGo "ListIdentifiers" server 0 ⟨[], 0⟩ (initialParams "ListIdentifiers" setSpec) fuel

/-- list_records(set_spec, session) from harvest_records_in_batches.py: the
same loop with the ListRecords verb (items are the serialized record
fragments instead of identifiers). -/
def list_records (server : Nat → List (String × String) → Nat → AttemptOutcome)
    (setSpec : String) (fuel : Nat) : RunOut × List (List (String × String)) :=
  loopGo "ListRecords" server 0 ⟨[], 0⟩ (initialParams "ListRecords" setSpec) fuel

/-- Placeholder for the unbound `response` variable before the first loop
iteration of get_record_information; never returned because MAX_RETRIES > 0. -/
def emptyResponse : Response := ⟨0, "", [], none⟩

/-- The `while retries < MAX_RETRIES` loop of get_record_information, with
`fuel = MAX_RETRIES - retries`.  `ro i` is the attempt oracle of its i-th
make_request call; `last` is the response of the previous iteration, returned
when the retry budget is exhausted.  Returns the response and seconds slept
(the loop sleeps `5 * retries` after incrementing retries, i.e.
`5 * (MAX_RETRIES - fuel)` at remaining fuel `fuel + 1`); `.error` propagates
a make_request exception. -/
def getRecordLoop (ro : Nat → Nat → AttemptOutcome) :
    Nat → Nat → Response → Except Unit (Response × Nat)
  | 0, _, last => .ok (last, 0)
  | fuel + 1, callIdx, _last =>
    match (make_request (ro callIdx)).1 with
    | .error e => .error e
    | .ok r =>
      if errorCondition r then
        match getRecordLoop ro fuel (callIdx + 1) r with
        | .error e => .error e
        | .ok p => .ok (p.1, 5 * (MAX_RETRIES - fuel) + p.2)
      else .ok (r, 0)

/-- get_record_information(identifier, session) from harvest_records.py. -/
def get_record_information (ro : Nat → Nat → AttemptOutcome) : Except Unit (Response × Nat) :=
  getRecordLoop ro MAX_RETRIES 0 emptyResponse

/-- A file is keyed by (directory under SAVE_DIR, file name). -/
abbrev FileKey := String × String

/-- The filesystem under SAVE_DIR as an association list. -/
abbrev FileSystem := List (FileKey × String)

/-- Writing a file with `open(path, "w")`: unconditional overwrite, creating
the entry when absent. -/
def setFile : FileSystem → FileKey → String → FileSystem
  | [], k, c => [(k, c)]
  | (k', c') :: rest, k, c =>
    if k' = k then (k, c) :: rest else (k', c') :: setFile rest k c

/-- Reading a file's content when it exists. -/
def getFile : FileSystem → FileKey → Option String
  | [], _ => none
  | (k', c') :: rest, k => if k' = k then some c' else getFile rest k

/-- save_metadata(record_xml, identifier, dataset_id) from harvest_records.py:
writes record_xml to SAVE_DIR/dataset_id/identifier.xml. -/
def save_metadata (fs : FileSystem) (record_xml identifier dataset_id : String) : FileSystem :=
  setFile fs (dataset_id, identifier ++ ".xml") record_xml

/-- save_record(record_xml, dataset_id) from harvest_records_in_batches.py:
the identifier is extracted from the record XML itself (modelled by
`extractId`, standing for `record.find(.//identifier).text`), then the raw
record XML is written to SAVE_DIR/dataset_id/identifier.xml. -/
def save_record (extractId : String → String) (fs : FileSystem)
    (record_xml dataset_id : String) : FileSystem :=
  setFile fs (dataset_id, extractId record_xml ++ ".xml") record_xml

/-- Outcome of process_record: the filesystem afterwards and whether the
fetch raised (in which case the filesystem is unchanged). -/
structure ProcOut where
  fs : FileSystem
  raised : Bool
deriving DecidableEq

/-- process_record(identifier, session, set_spec) from harvest_records.py:
fetch via get_record_information, and save the body iff the returned status
code is 200.  An exception from the fetch propagates, leaving the filesystem
unchanged. -/
def process_record (ro : Nat → Nat → AttemptOutcome) (identifier set_spec : String)
    (fs : FileSystem) : ProcOut :=
  match get_record_information ro with
  | .error _ => ⟨fs, true⟩
  | .ok (r, _) =>
    ⟨if r.status == 200 then save_metadata fs r.text identifier set_spec else fs, false⟩

section Claims

/-! Helper lemmas shared by the claim theorems. -/

theorem getFile_setFile (fs : FileSystem) (k : FileKey) (c : String) :
    getFile (setFile fs k c) k = some c := by
  induction fs with
  | nil => simp [setFile, getFile]
  | cons hd tl ih =>
    obtain ⟨k', c'⟩ := hd
    by_cases h : k' = k
    · simp [setFile, getFile, h]
    · simp [setFile, getFile, h, ih]

theorem setFile_setFile (fs : FileSystem) (k : FileKey) (c1 c2 : String) :
    setFile (setFile fs k c1) k c2 = setFile fs k c2 := by
  induction fs with
  | nil => simp [setFile]
  | cons hd tl ih =>
    obtain ⟨k', c'⟩ := hd
    by_cases h : k' = k
    · simp [setFile, h]
    · simp [setFile, h, ih]

theorem makeRequestGo_allFail (oracle : Nat → AttemptOutcome)
    (h : ∀ i, attemptFails (oracle i) = true) :
    ∀ fuel retries, makeRequestGo oracle fuel retries
      = (.error (), 2 ^ (retries + fuel) - 2 ^ retries) := by
  intro fuel
  induction fuel with
  | zero => intro r; simp [makeRequestGo, h r]
  | succ f ih =>
    intro r
    have harith : 2 ^ (r + 1) ≤ 2 ^ (r + (f + 1)) :=
      Nat.pow_le_pow_right (by norm_num) (by omega)
    have hsplit : 2 ^ (r + 1) = 2 ^ r + 2 ^ r := by rw [Nat.pow_succ]; ring
    have he : r + 1 + f = r + (f + 1) := by omega
    simp only [makeRequestGo, h r, if_pos, ih (r + 1), he]
    rw [Prod.mk.injEq]
    refine ⟨rfl, ?_⟩
    rw [hsplit] at harith ⊢
    generalize hA : 2 ^ (r + (f + 1)) = A at harith ⊢
    generalize hB : 2 ^ r = B at harith ⊢
    omega

theorem makeRequestGo_succAt (oracle : Nat → AttemptOutcome) (k : Nat) (r : Response)
    (hsucc : oracle (k + 1) = .resp r) (hok : attemptFails (.resp r) = false) :
    ∀ fuel retries, retries ≤ k + 1 → k + 1 ≤ retries + fuel →
    (∀ i, retries ≤ i → i ≤ k → attemptFails (oracle i) = true) →
    makeRequestGo oracle fuel retries = (.ok r, 2 ^ (k + 1) - 2 ^ retries) := by
  intro fuel
  induction fuel with
  | zero =>
    intro retries h1 h2 hf
    have hrk : retries = k + 1 := by omega
    subst hrk
    simp [makeRequestGo, hsucc, hok]
  | succ f ih =>
    intro retries h1 h2 hf
    by_cases hr : retries = k + 1
    · subst hr
      simp [makeRequestGo, hsucc, hok]
    · have hrk : retries ≤ k := by omega
      have hfail := hf retries le_rfl hrk
      have hrec := ih (retries + 1) (by omega) (by omega)
        (fun i hi1 hi2 => hf i (by omega) hi2)
      have harith : 2 ^ (retries + 1) ≤ 2 ^ (k + 1) :=
        Nat.pow_le_pow_right (by norm_num) (by omega)
      have hsplit : 2 ^ (retries + 1) = 2 ^ retries + 2 ^ retries := by
        rw [Nat.pow_succ]; ring
      simp only [makeRequestGo, hfail, if_pos, hrec]
      rw [Prod.mk.injEq]
      refine ⟨rfl, ?_⟩
      rw [hsplit] at harith ⊢
      generalize hA : 2 ^ (k + 1) = A at harith ⊢
      generalize hB : 2 ^ retries = B at harith ⊢
      omega

/-- Claim C2: a transport-level failure on attempt k waits 2^k seconds and
retries; at most MAX_RETRIES = 10 retries happen, so under continuous failure
the cumulative backoff is the full geometric sum 1023 = 2^0 + ... + 2^9 and
the final failure is re-raised; with a fault injected only on attempts 0..k
(k < 10), make_request returns the success response of attempt k + 1 after
cumulative backoff 2^(k+1) - 1 = 2^0 + ... + 2^k. -/
theorem c2_make_request_retry :
    (∀ oracle : Nat → AttemptOutcome, (∀ i, attemptFails (oracle i) = true) →
      make_request oracle = (.error (), 1023)) ∧
    (∀ (oracle : Nat → AttemptOutcome) (k : Nat) (r : Response), k < MAX_RETRIES →
      (∀ i, i ≤ k → attemptFails (oracle i) = true) →
      oracle (k + 1) = .resp r → attemptFails (.resp r) = false →
      make_request oracle = (.ok r, 2 ^ (k + 1) - 1)) := by
  constructor
  · intro oracle h
    have := makeRequestGo_allFail oracle h MAX_RETRIES 0
    simpa [make_request, MAX_RETRIES] using this
  · intro oracle k r hk hf hsucc hok
    have := makeRequestGo_succAt oracle k r hsucc hok MAX_RETRIES 0
      (by omega) (by simp [MAX_RETRIES] at hk ⊢; omega)
      (fun i _ hi2 => hf i hi2)
    simpa [make_request] using this

/-- Oracle that fails on attempts 0..2 and succeeds on attempt 3. -/
def c2oracle : Nat → AttemptOutcome :=
  fun i => if i < 3 then .exc else .resp ⟨200, "ok", [], none⟩

theorem c2_make_request_retry_witness :
    make_request c2oracle = (.ok ⟨200, "ok", [], none⟩, 7) ∧
    make_request (fun _ => .exc) = (.error (), 1023) :=
  ⟨c2_make_request_retry.2 c2oracle 2 ⟨200, "ok", [], none⟩ (by decide)
      (by decide) (by decide) (by decide),
    c2_make_request_retry.1 (fun _ => .exc) (fun _ => rfl)⟩

/-- Claim C8: parse_sets keeps exactly the set specifications containing no
hierarchy separator ":", and on the listing ["news", "news:images"] it
returns only ["news"]. -/
theorem c8_parse_sets_filter :
    (∀ (l : List String) (s : String),
      s ∈ parse_sets l ↔ s ∈ l ∧ strContains s ":" = false) ∧
    parse_sets ["news", "news:images"] = ["news"] := by
  constructor
  · intro l s
    simp [parse_sets, List.mem_filter]
  · decide

theorem c8_parse_sets_filter_witness :
    "news" ∈ parse_sets ["news", "news:images"] ∧
    parse_sets ["news", "news:images"] = ["news"] :=
  ⟨(c8_parse_sets_filter.1 ["news", "news:images"] "news").mpr
      ⟨by decide, by decide⟩,
    c8_parse_sets_filter.2⟩

/-- Claim C9: persisting a second payload after a first for the same
identifier unconditionally replaces the file at
partition-directory/identifier.xml; the resulting filesystem equals the one
obtained by the last write alone (so the final content is the last payload,
and persisting the same payload twice equals persisting it once); the same
holds for the batch-mode save_record when both payloads carry the same
identifier. -/
theorem c9_persist_overwrite :
    (∀ (fs : FileSystem) (p1 p2 ident sp : String),
      save_metadata (save_metadata fs p1 ident sp) p2 ident sp
        = save_metadata fs p2 ident sp) ∧
    (∀ (fs : FileSystem) (p1 p2 ident sp : String),
      getFile (save_metadata (save_metadata fs p1 ident sp) p2 ident sp)
        (sp, ident ++ ".xml") = some p2) ∧
    (∀ (ex : String → String) (fs : FileSystem) (r1 r2 ds : String), ex r1 = ex r2 →
      save_record ex (save_record ex fs r1 ds) r2 ds = save_record ex fs r2 ds) := by
  refine ⟨?_, ?_, ?_⟩
  · intro fs p1 p2 ident sp
    exact setFile_setFile fs (sp, ident ++ ".xml") p1 p2
  · intro fs p1 p2 ident sp
    rw [save_metadata, save_metadata, setFile_setFile]
    exact getFile_setFile fs (sp, ident ++ ".xml") p2
  · intro ex fs r1 r2 ds h
    simp only [save_record, h, setFile_setFile]

theorem c9_persist_overwrite_witness :
    getFile (save_metadata (save_metadata [] "old" "i" "d") "new" "i" "d")
      ("d", "i.xml") = some "new" ∧
    save_record (fun _ => "i") (save_record (fun _ => "i") [] "p1" "d") "p2" "d"
      = save_record (fun _ => "i") [] "p2" "d" :=
  ⟨c9_persist_overwrite.2.1 [] "old" "new" "i" "d",
    c9_persist_overwrite.2.2 (fun _ => "i") [] "p1" "p2" "d" rfl⟩

/-- Total seconds slept by the get_record_information loop when every
iteration hits the retry condition, indexed by remaining fuel: the iteration
at remaining fuel f + 1 sleeps 5 * (MAX_RETRIES - f). -/
def retrySleepTotal : Nat → Nat
  | 0 => 0
  | f + 1 => 5 * (MAX_RETRIES - f) + retrySleepTotal f

theorem getRecordLoop_allErr (ro : Nat → Nat → AttemptOutcome) (resp : Nat → Response)
    (hok : ∀ i, (make_request (ro i)).1 = .ok (resp i))
    (herr : ∀ i, errorCondition (resp i) = true) :
    ∀ fuel c last, getRecordLoop ro (fuel + 1) c last
      = .ok (resp (c + fuel), retrySleepTotal (fuel + 1)) := by
  intro fuel
  induction fuel with
  | zero =>
    intro c last
    simp [getRecordLoop, hok c, herr c, retrySleepTotal]
  | succ f ih =>
    intro c last
    have he : c + 1 + f = c + (f + 1) := by omega
    have hstep : getRecordLoop ro (f + 1 + 1) c last
        = match (make_request (ro c)).1 with
          | .error e => .error e
          | .ok r =>
            if errorCondition r then
              match getRecordLoop ro (f + 1) (c + 1) r with
              | .error e => .error e
              | .ok p => .ok (p.1, 5 * (MAX_RETRIES - (f + 1)) + p.2)
            else .ok (r, 0) := rfl
    rw [hstep, hok c]
    simp only [herr c, if_pos, ih (c + 1), he, retrySleepTotal]

/-- Claim C3: a response with an embedded cannotDisseminateFormat or
idDoesNotExist marker (even with HTTP status 200) meets the retry condition;
when every fetched response meets it, the loop runs its full MAX_RETRIES = 10
iterations sleeping 5, 10, ..., 50 seconds (275 in total, linear backoff
5 * attempt) and then returns the last response without raising, so the
returned body may still contain the error marker. -/
theorem c3_get_record_retries (ro : Nat → Nat → AttemptOutcome) (resp : Nat → Response)
    (hok : ∀ i, (make_request (ro i)).1 = .ok (resp i))
    (herr : ∀ i, errorCondition (resp i) = true) :
    get_record_information ro = .ok (resp 9, 275) ∧
    (∀ r : Response, strContains r.text idDoesNotExistMarker = true →
      errorCondition r = true) ∧
    (∀ r : Response, strContains r.text cannotDisseminateMarker = true →
      errorCondition r = true) := by
  refine ⟨?_, ?_, ?_⟩
  · have h := getRecordLoop_allErr ro resp hok herr 9 0 emptyResponse
    have h275 : retrySleepTotal 10 = 275 := by decide
    rw [show (10 : Nat) = 9 + 1 from rfl] at h275
    simpa [get_record_information, MAX_RETRIES, h275] using h
  · intro r h2
    simp [errorCondition, h2]
  · intro r h2
    simp [errorCondition, h2]

/-- Response whose body is exactly the idDoesNotExist marker, with status 200. -/
def c3resp : Response := ⟨200, idDoesNotExistMarker, [], none⟩

/-- Oracle on which every make_request call returns c3resp at once. -/
def c3oracle : Nat → Nat → AttemptOutcome := fun _ _ => .resp c3resp

theorem c3_get_record_retries_witness :
    get_record_information c3oracle = .ok (c3resp, 275) ∧
    errorCondition c3resp = true := by
  have hok : ∀ i : Nat, (make_request (c3oracle i)).1 = Except.ok c3resp := fun i => by
    show (make_request (fun _ => AttemptOutcome.resp c3resp)).1 = Except.ok c3resp
    decide
  have herr : ∀ i : Nat, errorCondition c3resp = true := fun i => by decide
  have h := c3_get_record_retries c3oracle (fun _ => c3resp) hok herr
  exact ⟨h.1, h.2.1 c3resp (by decide)⟩

theorem listStep_done_of_falsy (s : LoopState) (r : Response) (e : Nat)
    (h200 : r.status = 200)
    (he : updateExpected s.expected (s.identifiers ++ r.items).length r = some e)
    (htok : findtextToken r = none ∨ findtextToken r = some "") :
    listStep s r = .done ⟨s.identifiers ++ r.items, e⟩ := by
  rw [List.length_append] at he
  rcases htok with h | h <;> simp [listStep, h200, he, h]

theorem listStep_cont_of_truthy (s : LoopState) (r : Response) (e : Nat) (t : String)
    (h200 : r.status = 200)
    (he : updateExpected s.expected (s.identifiers ++ r.items).length r = some e)
    (ht : findtextToken r = some t) (hne : t ≠ "") :
    listStep s r = .cont ⟨s.identifiers ++ r.items, e⟩ t := by
  rw [List.length_append] at he
  simp [listStep, h200, he, ht, hne]

theorem listStep_cont_token_ne (s : LoopState) (r : Response) (s' : LoopState) (t : String)
    (h : listStep s r = .cont s' t) : (t == "") = false := by
  by_cases h200 : (r.status == 200) = true
  · cases hu : updateExpected s.expected (s.identifiers.length + r.items.length) r with
    | none =>
      have hv : listStep s r = .keyError ⟨s.identifiers ++ r.items, s.expected⟩ := by
        simp [listStep, h200, hu]
      rw [hv] at h
      exact absurd h (by simp)
    | some e =>
      cases ht : findtextToken r with
      | none =>
        have hv : listStep s r = .done ⟨s.identifiers ++ r.items, e⟩ := by
          simp [listStep, h200, hu, ht]
        rw [hv] at h
        exact absurd h (by simp)
      | some t0 =>
        by_cases hte : (t0 == "") = true
        · have hv : listStep s r = .done ⟨s.identifiers ++ r.items, e⟩ := by
            simp [listStep, h200, hu, ht, hte]
          rw [hv] at h
          exact absurd h (by simp)
        · have hv : listStep s r = .cont ⟨s.identifiers ++ r.items, e⟩ t0 := by
            simp [listStep, h200, hu, ht, hte]
          rw [hv] at h
          obtain ⟨-, rfl⟩ := StepOut.cont.inj h
          exact Bool.of_not_eq_true hte
  · have hv : listStep s r = .done s := by
      simp [listStep, h200]
    rw [hv] at h
    exact absurd h (by simp)

theorem loopGo_trace_ne_nil (verb : String)
    (server : Nat → List (String × String) → Nat → AttemptOutcome)
    (reqIdx : Nat) (s : LoopState) (params : List (String × String)) (fuel : Nat) :
    (loopGo verb server reqIdx s params (fuel + 1)).2 ≠ [] := by
  cases h : (make_request (server reqIdx params)).1 with
  | error e => simp [loopGo, h]
  | ok r => cases hs : listStep s r <;> simp [loopGo, h, hs]

/-- Whether a query-parameter list consists of exactly a verb entry and a
non-empty resumptionToken entry (and nothing else). -/
def tokenOnlyForm (verb : String) (q : List (String × String)) : Bool :=
  match q with
  | [(k1, v1), (k2, t)] =>
    k1 == "verb" && v1 == verb && k2 == "resumptionToken" && !(t == "")
  | _ => false

theorem loopGo_trace_shape (verb : String)
    (server : Nat → List (String × String) → Nat → AttemptOutcome) :
    ∀ (fuel reqIdx : Nat) (s : LoopState) (params : List (String × String)),
      ∀ q ∈ (loopGo verb server reqIdx s params fuel).2,
        q = params ∨ tokenOnlyForm verb q = true := by
  intro fuel
  induction fuel with
  | zero =>
    intro reqIdx s params q hq
    simp [loopGo] at hq
  | succ f ih =>
    intro reqIdx s params q hq
    cases h : (make_request (server reqIdx params)).1 with
    | error e =>
      simp [loopGo, h] at hq
      exact Or.inl hq
    | ok r =>
      cases hs : listStep s r with
      | done s' =>
        simp [loopGo, h, hs] at hq
        exact Or.inl hq
      | keyError s' =>
        simp [loopGo, h, hs] at hq
        exact Or.inl hq
      | cont s' t =>
        have hq' : q = params ∨
            q ∈ (loopGo verb server (reqIdx + 1) s' (tokenParams verb t) f).2 := by
          have : q ∈ params ::
              (loopGo verb server (reqIdx + 1) s' (tokenParams verb t) f).2 := by
            simpa [loopGo, h, hs] using hq
          exact List.mem_cons.mp this
        rcases hq' with h1 | h2
        · exact Or.inl h1
        · rcases ih (reqIdx + 1) s' (tokenParams verb t) q h2 with h3 | h4
          · right
            rw [h3]
            simp [tokenOnlyForm, tokenParams, listStep_cont_token_ne s r s' t hs]
          · exact Or.inr h4

/-- Claim C1: after a 200 page on which the expected-total update does not
raise, the pagination loop terminates exactly when the page carries no
resumption token, where a token element that is absent and a token that
decodes to the empty string behave identically (one final request, result
finished); when the token is non-empty the loop issues at least one further
request.  Instantiating verb with "ListIdentifiers" or "ListRecords" gives
the loops of list_identifiers and list_records. -/
theorem c1_pagination_termination (verb : String)
    (server : Nat → List (String × String) → Nat → AttemptOutcome)
    (reqIdx : Nat) (s : LoopState) (params : List (String × String)) (fuel : Nat)
    (r : Response) (e : Nat)
    (hresp : (make_request (server reqIdx params)).1 = .ok r)
    (h200 : r.status = 200)
    (he : updateExpected s.expected (s.identifiers ++ r.items).length r = some e) :
    ((findtextToken r = none ∨ findtextToken r = some "") →
      loopGo verb server reqIdx s params (fuel + 1)
        = (.finished ⟨s.identifiers ++ r.items, e⟩, [params])) ∧
    (∀ t, findtextToken r = some t → t ≠ "" →
      2 ≤ (loopGo verb server reqIdx s params (fuel + 2)).2.length) := by
  constructor
  · intro htok
    have hs := listStep_done_of_falsy s r e h200 he htok
    simp [loopGo, hresp, hs]
  · intro t ht hne
    have hs := listStep_cont_of_truthy s r e t h200 he ht hne
    have hrw : loopGo verb server reqIdx s params (fuel + 2)
        = ((loopGo verb server (reqIdx + 1) ⟨s.identifiers ++ r.items, e⟩
              (tokenParams verb t) (fuel + 1)).1,
           params :: (loopGo verb server (reqIdx + 1) ⟨s.identifiers ++ r.items, e⟩
              (tokenParams verb t) (fuel + 1)).2) := by
      simp [loopGo, hresp, hs]
    rw [hrw]
    have hne' := loopGo_trace_ne_nil verb server (reqIdx + 1)
      ⟨s.identifiers ++ r.items, e⟩ (tokenParams verb t) fuel
    have : 0 < (loopGo verb server (reqIdx + 1) ⟨s.identifiers ++ r.items, e⟩
        (tokenParams verb t) (fuel + 1)).2.length := List.length_pos.mpr hne'
    simp only [List.length_cons]
    omega

/-- Server answering with a single tokenless 200 page. -/
def c1server : Nat → List (String × String) → Nat → AttemptOutcome :=
  fun _ _ _ => .resp ⟨200, "", ["a"], none⟩

/-- Server answering a 200 page with token "tok", then a tokenless 200 page. -/
def c1serverTok : Nat → List (String × String) → Nat → AttemptOutcome :=
  fun reqIdx _ _ =>
    .resp (if reqIdx = 0 then ⟨200, "", ["a", "b"], some ⟨some "tok", some 2⟩⟩
           else ⟨200, "", [], none⟩)

theorem c1_pagination_termination_witness :
    loopGo "ListIdentifiers" c1server 0 ⟨[], 0⟩ (initialParams "ListIdentifiers" "x") 1
      = (.finished ⟨["a"], 1⟩, [initialParams "ListIdentifiers" "x"]) ∧
    2 ≤ (loopGo "ListIdentifiers" c1serverTok 0 ⟨[], 0⟩
          (initialParams "ListIdentifiers" "x") 2).2.length :=
  ⟨(c1_pagination_termination "ListIdentifiers" c1server 0 ⟨[], 0⟩
      (initialParams "ListIdentifiers" "x") 0 ⟨200, "", ["a"], none⟩ 1
      (by decide) rfl (by decide)).1 (Or.inl rfl),
    (c1_pagination_termination "ListIdentifiers" c1serverTok 0 ⟨[], 0⟩
      (initialParams "ListIdentifiers" "x") 0 ⟨200, "", ["a", "b"], some ⟨some "tok", some 2⟩⟩ 2
      (by decide) rfl (by decide)).2 "tok" rfl (by decide)⟩

/-- Claim C6: every request a pagination loop issues after the first carries
exactly two parameters, the verb and a non-empty resumptionToken; in
particular metadataPrefix and set are not resent.  Instantiating verb with
"ListIdentifiers" or "ListRecords" gives the loops of list_identifiers and
list_records. -/
theorem c6_followup_params (verb : String)
    (server : Nat → List (String × String) → Nat → AttemptOutcome)
    (reqIdx : Nat) (s : LoopState) (params : List (String × String)) (fuel : Nat) :
    ∀ q ∈ (loopGo verb server reqIdx s params fuel).2.tail,
      tokenOnlyForm verb q = true := by
  cases fuel with
  | zero => simp [loopGo]
  | succ f =>
    cases h : (make_request (server reqIdx params)).1 with
    | error e => simp [loopGo, h]
    | ok r =>
      cases hs : listStep s r with
      | done s' => simp [loopGo, h, hs]
      | keyError s' => simp [loopGo, h, hs]
      | cont s' t =>
        intro q hq
        have hq' : q ∈ (loopGo verb server (reqIdx + 1) s' (tokenParams verb t) f).2 := by
          simpa [loopGo, h, hs] using hq
        rcases loopGo_trace_shape verb server f (reqIdx + 1) s'
            (tokenParams verb t) q hq' with h1 | h2
        · rw [h1]
          simp [tokenOnlyForm, tokenParams, listStep_cont_token_ne s r s' t hs]
        · exact h2

/-- Server for the C6 witness: first page carries token "tok1", second none. -/
def c6server : Nat → List (String × String) → Nat → AttemptOutcome :=
  fun reqIdx _ _ =>
    .resp (if reqIdx = 0 then ⟨200, "", ["a"], some ⟨some "tok1", some 2⟩⟩
           else ⟨200, "", ["b"], none⟩)

theorem c6_followup_params_witness :
    tokenOnlyForm "ListIdentifiers" (tokenParams "ListIdentifiers" "tok1") = true :=
  c6_followup_params "ListIdentifiers" c6server 0 ⟨[], 0⟩
    (initialParams "ListIdentifiers" "x") 3
    (tokenParams "ListIdentifiers" "tok1") (by decide)

/-- Server for the C4 counterexample: the first page carries token "tok" with
completeListSize 0, the second page an empty-text token with
completeListSize 5. -/
def c4server : Nat → List (String × String) → Nat → AttemptOutcome :=
  fun reqIdx _ _ =>
    .resp (if reqIdx = 0 then ⟨200, "", ["a"], some ⟨some "tok", some 0⟩⟩
           else ⟨200, "", ["b"], some ⟨some "", some 5⟩⟩)

/-- Claim C4 counterexample: the first page is read and yields expected
total 0, and the second page then recomputes the expected total to 5 — so the
expected-total is not read from the token node on the first page only, and
processing a subsequent page changed it (the guard is `expected == 0`, not
`first page`). -/
theorem c4_counterexample :
    list_identifiers c4server "s" 5
      = (.finished ⟨["a", "b"], 5⟩,
         [initialParams "ListIdentifiers" "s", tokenParams "ListIdentifiers" "tok"]) ∧
    updateExpected 0 1 ⟨200, "", ["a"], some ⟨some "tok", some 0⟩⟩ = some 0 ∧
    listStep ⟨["a"], 0⟩ ⟨200, "", ["b"], some ⟨some "", some 5⟩⟩ = .done ⟨["a", "b"], 5⟩ := by
  decide

/-- Claim C4 amended: the expected total is (re)read from the token node on
every page processed while its current value is 0; once a non-zero value has
been learned it is never recomputed, and processing any later page leaves it
unchanged. -/
theorem c4_expected_total_stable (s : LoopState) (r : Response) (hnz : s.expected ≠ 0) :
    updateExpected s.expected (s.identifiers ++ r.items).length r = some s.expected ∧
    (∀ s' t, listStep s r = .cont s' t → s'.expected = s.expected) ∧
    (∀ s', listStep s r = .done s' → s'.expected = s.expected) := by
  have hbeq : (s.expected == 0) = false := by
    simp [hnz]
  have hu : ∀ n : Nat, updateExpected s.expected n r = some s.expected := by
    intro n
    simp [updateExpected, hbeq]
  refine ⟨hu _, ?_, ?_⟩
  · intro s' t h
    by_cases h200 : (r.status == 200) = true
    · cases ht : findtextToken r with
      | none =>
        have hv := listStep_done_of_falsy s r s.expected
          (by simpa using h200) (hu _) (Or.inl ht)
        rw [hv] at h
        exact absurd h (by simp)
      | some t0 =>
        by_cases hte : t0 = ""
        · subst hte
          have hv := listStep_done_of_falsy s r s.expected
            (by simpa using h200) (hu _) (Or.inr ht)
          rw [hv] at h
          exact absurd h (by simp)
        · have hv := listStep_cont_of_truthy s r s.expected t0
            (by simpa using h200) (hu _) ht hte
          rw [hv] at h
          obtain ⟨rfl, -⟩ := StepOut.cont.inj h
          rfl
    · have hv : listStep s r = .done s := by
        simp [listStep, h200]
      rw [hv] at h
      exact absurd h (by simp)
  · intro s' h
    by_cases h200 : (r.status == 200) = true
    · cases ht : findtextToken r with
      | none =>
        have hv := listStep_done_of_falsy s r s.expected
          (by simpa using h200) (hu _) (Or.inl ht)
        rw [hv] at h
        obtain rfl := StepOut.done.inj h
        rfl
      | some t0 =>
        by_cases hte : t0 = ""
        · subst hte
          have hv := listStep_done_of_falsy s r s.expected
            (by simpa using h200) (hu _) (Or.inr ht)
          rw [hv] at h
          obtain rfl := StepOut.done.inj h
          rfl
        · have hv := listStep_cont_of_truthy s r s.expected t0
            (by simpa using h200) (hu _) ht hte
          rw [hv] at h
          exact absurd h (by simp)
    · have hv : listStep s r = .done s := by
        simp [listStep, h200]
      rw [hv] at h
      obtain rfl := StepOut.done.inj h
      rfl

/-- Page used by the C4 witness: 200, one item, empty-text token node with
completeListSize 9. -/
def c4resp : Response := ⟨200, "", ["b"], some ⟨some "", some 9⟩⟩

theorem c4_expected_total_stable_witness :
    updateExpected 3 2 c4resp = some 3 ∧ (LoopState.mk ["a", "b"] 3).expected = 3 :=
  ⟨(c4_expected_total_stable ⟨["a"], 3⟩ c4resp (by decide)).1,
    (c4_expected_total_stable ⟨["a"], 3⟩ c4resp (by decide)).2.2
      ⟨["a", "b"], 3⟩ (by decide)⟩

/-- Claim C5 counterexample: on a first page whose resumptionToken element is
present but carries no completeListSize attribute, the loop raises an
uncaught KeyError (only AttributeError is caught) instead of setting the
expected total to the item count and continuing. -/
theorem c5_counterexample :
    listStep ⟨[], 0⟩ ⟨200, "", ["a"], some ⟨some "t", none⟩⟩ = .keyError ⟨["a"], 0⟩ ∧
    updateExpected 0 1 ⟨200, "", ["a"], some ⟨some "t", none⟩⟩ = none := by
  decide

/-- Claim C5 amended: the item-count fallback applies when the
resumptionToken element is absent entirely (the caught AttributeError case):
the expected total becomes the number of items seen so far and the page is
the last one processed. -/
theorem c5_fallback_on_absent_node (ids : List String) (r : Response)
    (h200 : r.status = 200) (hnode : r.tokenNode = none) :
    listStep ⟨ids, 0⟩ r = .done ⟨ids ++ r.items, (ids ++ r.items).length⟩ := by
  have he : updateExpected (0 : Nat) (ids ++ r.items).length r
      = some (ids ++ r.items).length := by
    simp [updateExpected, hnode]
  have ht : findtextToken r = none := by
    simp [findtextToken, hnode]
  exact listStep_done_of_falsy ⟨ids, 0⟩ r (ids ++ r.items).length h200 he (Or.inl ht)

theorem c5_fallback_on_absent_node_witness :
    listStep ⟨["x"], 0⟩ ⟨200, "", ["a"], none⟩ = .done ⟨["x", "a"], 2⟩ :=
  c5_fallback_on_absent_node ["x"] ⟨200, "", ["a"], none⟩ rfl rfl

/-- Oracle whose every attempt returns status 200 with the idDoesNotExist
marker as the whole body. -/
def c7oracle : Nat → Nat → AttemptOutcome :=
  fun _ _ => .resp ⟨200, idDoesNotExistMarker, [], none⟩

/-- Claim C7 counterexample: when every fetch attempt yields status 200 with
an error-marker body, get_record_information exhausts its retries and returns
that body, and process_record — which inspects only the status code — persists
the erroneous body as a record file. -/
theorem c7_counterexample :
    (process_record c7oracle "id1" "set1" []).fs
      = [(("set1", "id1.xml"), idDoesNotExistMarker)] ∧
    strContains idDoesNotExistMarker idDoesNotExistMarker = true := by
  decide

/-- Claim C7 amended: when the fetch raises, process_record propagates the
exception and the filesystem is unchanged; otherwise the caller inspects only
the HTTP status code: a non-200 final response is not persisted, while any
status-200 response body — including one still carrying an error marker — is
persisted verbatim. -/
theorem c7_fetch_failure_isolation (ro : Nat → Nat → AttemptOutcome)
    (ident sp : String) (fs : FileSystem) :
    (get_record_information ro = .error () → process_record ro ident sp fs = ⟨fs, true⟩) ∧
    (∀ r slept, get_record_information ro = .ok (r, slept) → r.status ≠ 200 →
      process_record ro ident sp fs = ⟨fs, false⟩) ∧
    (∀ r slept, get_record_information ro = .ok (r, slept) → r.status = 200 →
      process_record ro ident sp fs = ⟨save_metadata fs r.text ident sp, false⟩) := by
  refine ⟨?_, ?_, ?_⟩
  · intro h
    simp [process_record, h]
  · intro r slept h hne
    simp [process_record, h, hne]
  · intro r slept h he
    simp [process_record, h, he]

/-- Oracle whose first attempt returns a clean 200 response. -/
def c7okOracle : Nat → Nat → AttemptOutcome := fun _ _ => .resp ⟨200, "body", [], none⟩

theorem c7_fetch_failure_isolation_witness :
    process_record c7okOracle "i" "d" [] = ⟨save_metadata [] "body" "i" "d", false⟩ :=
  (c7_fetch_failure_isolation c7okOracle "i" "d" []).2.2
    ⟨200, "body", [], none⟩ 0 (by decide) rfl

/-- A 304 response carrying items and a token, as returned by a server. -/
def c10resp : Response := ⟨304, "", ["x"], some ⟨some "tk", some 3⟩⟩

/-- Oracle whose every attempt returns the 304 response. -/
def c10oracle : Nat → AttemptOutcome := fun _ => .resp c10resp

/-- Claim C10 counterexample: raise_for_status raises only for statuses in
400..599, so make_request returns a 304 response unchanged; 304 is not an
HTTP success status, and on such a response the pagination loop reaches the
non-200 else branch, breaking without consuming the page — the branch is
reachable. -/
theorem c10_counterexample :
    (make_request c10oracle).1 = .ok c10resp ∧
    (c10resp.status < 200 ∨ 300 ≤ c10resp.status) ∧
    listStep ⟨[], 0⟩ c10resp = .done ⟨[], 0⟩ := by
  decide

/-- Claim C10 amended: every response make_request returns (rather than
raising) has a status code outside raise_for_status's error range 400..599;
that does not force status 200, so the loop's non-200 else branch remains
reachable. -/
theorem attemptFails_false_status (r : Response) (h : attemptFails (.resp r) = false) :
    r.status < 400 ∨ 600 ≤ r.status := by
  by_cases h4 : 400 ≤ r.status
  · right
    simp [attemptFails, h4] at h
    omega
  · left
    omega

theorem c10_returned_status_range (oracle : Nat → AttemptOutcome)
    (fuel retries : Nat) (r : Response) (slept : Nat)
    (h : makeRequestGo oracle fuel retries = (.ok r, slept)) :
    r.status < 400 ∨ 600 ≤ r.status := by
  induction fuel generalizing retries slept with
  | zero =>
    by_cases hf : attemptFails (oracle retries) = true
    · simp [makeRequestGo, hf] at h
    · rw [Bool.not_eq_true] at hf
      cases ho : oracle retries with
      | exc =>
        rw [ho] at hf
        simp [attemptFails] at hf
      | resp r' =>
        rw [ho] at hf
        have hr' : r' = r := by
          simp [makeRequestGo, ho, hf] at h
          exact h.1
        subst hr'
        exact attemptFails_false_status r' hf
  | succ f ih =>
    by_cases hf : attemptFails (oracle retries) = true
    · have hfst := congrArg Prod.fst h
      simp only [makeRequestGo, hf, if_true] at hfst
      exact ih (retries + 1) (makeRequestGo oracle f (retries + 1)).2 (Prod.ext hfst rfl)
    · rw [Bool.not_eq_true] at hf
      cases ho : oracle retries with
      | exc =>
        rw [ho] at hf
        simp [attemptFails] at hf
      | resp r' =>
        rw [ho] at hf
        have hr' : r' = r := by
          simp [makeRequestGo, ho, hf] at h
          exact h.1
        subst hr'
        exact attemptFails_false_status r' hf

theorem c10_returned_status_range_witness :
    (Response.mk 204 "" [] none).status < 400 ∨ 600 ≤ (Response.mk 204 "" [] none).status :=
  c10_returned_status_range (fun _ => .resp ⟨204, "", [], none⟩) 10 0
    ⟨204, "", [], none⟩ 0 (by decide)

end Claims

end DdbHarvester
